import Mathlib

/-!
A shallow embedding of the CatieCli backend (an LLM reverse proxy with a
shared Google-credential pool) and proofs about its credential selection,
quota accounting, cooldown, donation rewards and failure handling.

The definitions below are translated from the Python sources:
  backend/app/services/credential_pool.py
  backend/app/routers/proxy.py
  backend/app/routers/auth.py
  backend/app/routers/manage.py
  backend/app/config.py / backend/app/database.py

Modelling conventions:
- `settings.<key>` values are fields of a `Settings` record (they are
  process-wide mutable configuration; every function below takes the
  current snapshot as an argument).
- Timestamps are integers (seconds).  `datetime.utcnow()` is the `now`
  argument.  Pool timestamps are `Int`; the daily-rollover arithmetic in
  the proxy uses nonnegative epoch seconds, modelled as `Nat`.
- DB tables are lists of records; a SQLAlchemy query is a filter/sort over
  the list; `db.commit()` boundaries are modelled where a claim depends on
  them (`handle_credential_failure` returns its list of committed states).
- The `users.bonus_quota` column is added by the migration in
  `database.py`; the ORM row is modelled with both `daily_quota` and
  `bonus_quota` fields.
-/

namespace CatieCli

/-- Python `list → bool` of a character-by-character match of `pat` at the
head of `s` (helper for substring containment). -/
def headMatches : List Char → List Char → Bool
  | [], _ => true
  | _ :: _, [] => false
  | a :: as, b :: bs => a == b && headMatches as bs

/-- Helper: does `pat` occur somewhere in the character list? -/
def strContainsAux (pat : List Char) : List Char → Bool
  | [] => pat.isEmpty
  | c :: rest => headMatches pat (c :: rest) || strContainsAux pat rest

/-- Python substring containment `pat in s`.  (The empty pattern is always
contained, as in Python.) -/
def strContains (s pat : String) : Bool :=
  strContainsAux pat.data s.data

/-- Python `str.lower()` (ASCII case folding suffices for the model names
and error texts handled by this program). -/
def lowerString (s : String) : String :=
  String.mk (s.data.map Char.toLower)

/-- The configuration snapshot (`app.config.settings` fields consumed by
the functions modelled here; several of them are created via the admin
`POST /api/manage/config` endpoint and persisted in `system_config`). -/
structure Settings where
  cd_flash : Int
  cd_pro : Int
  cd_30 : Int
  quota_flash : Int
  quota_25pro : Int
  quota_30pro : Int
  credential_reward_quota_25 : Int
  credential_reward_quota_30 : Int
  default_daily_quota : Int
  no_cred_quota_flash : Int
  no_cred_quota_25pro : Int
  no_cred_quota_30pro : Int
  lock_donate : Bool
  force_donate : Bool
  credential_pool_mode : String
  error_retry_count : Nat
  deriving DecidableEq, Repr

/-- A row of the `credentials` table (fields consumed by the modelled
functions; the per-group `last_used_*` columns are the ones read by
`CredentialPool.is_credential_in_cd`). -/
structure Credential where
  id : Nat
  user_id : Option Nat
  project_id : Option String
  model_tier : String
  is_public : Bool
  is_active : Bool
  total_requests : Nat
  failed_requests : Nat
  last_error : Option String
  last_used_at : Option Int
  last_used_flash : Option Int
  last_used_pro : Option Int
  last_used_30 : Option Int
  deriving DecidableEq, Repr

/-- A row of the `users` table (quota-relevant fields). -/
structure User where
  id : Nat
  is_active : Bool
  is_admin : Bool
  daily_quota : Int
  bonus_quota : Int
  deriving DecidableEq, Repr

/-- A row of the `usage_logs` table (fields consumed by the quota and
rate windows). -/
structure UsageLog where
  user_id : Nat
  credential_id : Option Nat
  model : String
  status_code : Nat
  created_at : Nat
  deriving DecidableEq, Repr

/-- `CredentialPool.get_required_tier`: tier "3" iff the lowered model id
contains "gemini-3-" (the "/gemini-3-" disjunct of the source is kept). -/
def get_required_tier (model : String) : String :=
  let ml := lowerString model
  if strContains ml ("gemini-3-") || strContains ml ("/gemini-3-") then "3" else "2.5"

/-- `CredentialPool.get_model_group`: "30" for Gemini-3 models, "pro" for
anything else containing "pro", otherwise "flash". -/
def get_model_group (model : String) : String :=
  if model == "" then "flash"
  else
    let ml := lowerString model
    if strContains ml ("gemini-3-") || strContains ml ("/gemini-3-") then "30"
    else if strContains ml ("pro") then "pro"
    else "flash"

/-- `CredentialPool.get_cd_seconds`. -/
def get_cd_seconds (s : Settings) (modelGroup : String) : Int :=
  if modelGroup == "30" then s.cd_30
  else if modelGroup == "pro" then s.cd_pro
  else s.cd_flash

/-- The per-group `last_used_*` column read by the cooldown check. -/
def cd_last_used (c : Credential) (modelGroup : String) : Option Int :=
  if modelGroup == "30" then c.last_used_30
  else if modelGroup == "pro" then c.last_used_pro
  else c.last_used_flash

/-- `CredentialPool.is_credential_in_cd`: false when the group cooldown is
non-positive or the group was never used, otherwise
`now < last_used + cd_seconds`. -/
def is_credential_in_cd (s : Settings) (now : Int) (c : Credential) (modelGroup : String) : Bool :=
  let cd := get_cd_seconds s modelGroup
  if cd ≤ 0 then false
  else
    match cd_last_used c modelGroup with
    | none => false
    | some lastUsed => decide (now < lastUsed + cd)

/-- `CredentialPool.check_user_has_tier3_creds`: the user owns an active
tier-"3" credential. -/
def check_user_has_tier3_creds (db : List Credential) (userId : Nat) : Bool :=
  db.any (fun c => c.user_id == some userId && c.model_tier == "3" && c.is_active)

/-- The sharing-mode clause of `CredentialPool.get_available_credential`
(private / tier3_shared / full_shared). -/
def pool_mode_ok (s : Settings) (db : List Credential) (userId : Nat)
    (userHasPublicCreds : Bool) (requiredTier : String) (c : Credential) : Bool :=
  if s.credential_pool_mode == "private" then c.user_id == some userId
  else if s.credential_pool_mode == "tier3_shared" then
    if requiredTier == "3" then
      if check_user_has_tier3_creds db userId then c.is_public || c.user_id == some userId
      else c.user_id == some userId
    else c.is_public || c.user_id == some userId
  else
    if userHasPublicCreds then c.is_public || c.user_id == some userId
    else c.user_id == some userId

/-- The full WHERE-clause of `get_available_credential`: active, non-empty
`project_id`, not excluded, tier-compatible, and allowed by the sharing
mode. -/
def pool_filter_pred (s : Settings) (db : List Credential) (userId : Nat)
    (userHasPublicCreds : Bool) (requiredTier : String) (excludeIds : List Nat)
    (c : Credential) : Bool :=
  c.is_active
  && (c.project_id.getD ("") != "")
  && !(excludeIds.contains c.id)
  && (requiredTier != "3" || c.model_tier == "3")
  && pool_mode_ok s db userId userHasPublicCreds requiredTier c

/-- The ordered candidate list of `get_available_credential` before the
cooldown filter.  (`model=None` and `model=""` both fall back to tier
"2.5", matching the Python truthiness test `if model else "2.5"` and
`get_required_tier("") = "2.5"`.) -/
def pool_candidates (s : Settings) (db : List Credential) (userId : Nat)
    (userHasPublicCreds : Bool) (model : Option String) (excludeIds : List Nat) :
    List Credential :=
  db.filter
    (pool_filter_pred s db userId userHasPublicCreds (get_required_tier (model.getD (""))) excludeIds)

/-- The `ORDER BY last_used_at ASC NULLS FIRST` comparison. -/
def luLE : Option Int → Option Int → Bool
  | none, _ => true
  | some _, none => false
  | some a, some b => decide (a ≤ b)

/-- Insert a credential into a list sorted by `luLE` on `last_used_at`
(stable: keeps earlier rows first among equal keys, as SQLite returns
rows). -/
def insertLU (c : Credential) : List Credential → List Credential
  | [] => [c]
  | d :: ds => if luLE c.last_used_at d.last_used_at then c :: d :: ds else d :: insertLU c ds

/-- Stable sort by `last_used_at ASC NULLS FIRST`. -/
def sortLU (l : List Credential) : List Credential := l.foldr insertLU []

/-- `CredentialPool.get_available_credential`: the returned credential
(the subsequent bookkeeping writes `last_used_at`, the per-group
timestamp and `total_requests`, which the claims here do not depend on).
When every candidate is inside its cooldown the head of the ordered
candidate list is returned anyway; when the candidate list is empty the
result is `none`. -/
def get_available_credential (s : Settings) (db : List Credential) (now : Int)
    (userId : Nat) (userHasPublicCreds : Bool) (model : Option String)
    (excludeIds : List Nat) : Option Credential :=
  let credentials := sortLU (pool_candidates s db userId userHasPublicCreds model excludeIds)
  match credentials with
  | [] => none
  | c0 :: rest =>
    let modelGroup := get_model_group (model.getD (""))
    let available := (c0 :: rest).filter (fun c => !(is_credential_in_cd s now c modelGroup))
    match available with
    | [] => some c0
    | c :: _ => some c

/-- Seconds per day. -/
def seconds_per_day : Nat := 86400

/-- `now.replace(hour=7, minute=0, second=0, microsecond=0)` over epoch
seconds: 07:00 UTC of the current day. -/
def reset_time_utc (now : Nat) : Nat :=
  now / seconds_per_day * seconds_per_day + 7 * 3600

/-- The start-of-day used for daily-quota counting in
`routers/proxy.py::get_user_from_api_key`: 07:00 UTC of today when
`now ≥ 07:00 UTC`, else 07:00 UTC of yesterday. -/
def start_of_day (now : Nat) : Nat :=
  if now < reset_time_utc now then reset_time_utc now - seconds_per_day
  else reset_time_utc now

/-- Result of the authentication/quota gate. -/
inductive GateResult where
  | allow
  | reject (status : Nat) (detail : String)
  deriving DecidableEq, Repr

/-- The proxy's daily count: ALL usage logs of the user since
start-of-day, with no filter on `status_code`. -/
def count_user_logs_since (logs : List UsageLog) (userId : Nat) (since : Nat) : Nat :=
  (logs.filter (fun l => l.user_id == userId && decide (since ≤ l.created_at))).length

/-- `routers/proxy.py::get_user_from_api_key`, from the point where the
user row has been resolved: the active check and the daily-quota gate.
The `model LIKE` patterns of the no-credential branch are ASCII
case-insensitive for "pro" (SQLite default collation for LIKE); the "3"
pattern contains no letters. -/
def get_user_from_api_key (s : Settings) (db : List Credential) (logs : List UsageLog)
    (user : User) (now : Nat) (reqModel : String) : GateResult :=
  if !user.is_active then .reject 403 ("账户已被禁用")
  else
    let startOfDay := start_of_day now
    let hasCredential := db.any (fun c => c.user_id == some user.id && c.is_active)
    if hasCredential then
      if user.daily_quota ≤ (count_user_logs_since logs user.id startOfDay : Int) then
        .reject 429 ("已达到今日总配额限制")
      else .allow
    else
      let requiredTier := get_required_tier reqModel
      let quotaLimit : Int :=
        if requiredTier == "3" then s.no_cred_quota_30pro
        else if strContains reqModel ("pro") then s.no_cred_quota_25pro
        else s.no_cred_quota_flash
      if 0 < quotaLimit then
        let modelMatches := fun (l : UsageLog) =>
          if requiredTier == "3" then strContains l.model ("3")
          else if strContains reqModel ("pro") then strContains (lowerString l.model) ("pro")
          else !(strContains (lowerString l.model) ("pro"))
        let modelUsage :=
          (logs.filter (fun l =>
            l.user_id == user.id && decide (startOfDay ≤ l.created_at) && modelMatches l)).length
        if quotaLimit ≤ (modelUsage : Int) then .reject 429 ("已达到该模型等级的每日配额限制")
        else .allow
      else .allow

/-- Definition following the CLAIM's words, not the source (for
comparison): the number of SUCCESSFUL usage logs of the user since
start-of-day. -/
def spec_successful_count_since (logs : List UsageLog) (userId : Nat) (since : Nat) : Nat :=
  (logs.filter (fun l =>
    l.user_id == userId && decide (since ≤ l.created_at) && l.status_code == 200)).length

/-- Result of an owner credential mutation endpoint. -/
inductive UpdateResult where
  | rejected (detail : String)
  | updated (user : User) (cred : Credential)
  deriving DecidableEq, Repr

/-- The auth-error test of `update_my_credential`:
`cred.last_error and ('403' in ... or '401' in ... or '认证' in ... or '无效' in ...)`. -/
def has_auth_error (lastError : Option String) : Bool :=
  match lastError with
  | none => false
  | some e =>
    strContains e ("403") || strContains e ("401") || strContains e ("认证") || strContains e ("无效")

/-- The donation reward / deduction used by `routers/auth.py`:
`credential_reward_quota_30` for tier-"3" credentials, else
`credential_reward_quota_25`. -/
def donation_reward (s : Settings) (modelTier : String) : Int :=
  if modelTier == "3" then s.credential_reward_quota_30 else s.credential_reward_quota_25

/-- The quota claw-back of un-donation/deletion: deduct only when
`daily_quota - default_daily_quota >= deduct`, clamping at
`default_daily_quota`. -/
def undonate_quota (s : Settings) (q deduct : Int) : Int :=
  if deduct ≤ q - s.default_daily_quota then max s.default_daily_quota (q - deduct) else q

/-- `routers/auth.py::update_my_credential` (PATCH /credentials/:id),
from the point where the owned credential row has been fetched.  The
`is_public` request is processed first (reward on false→true, lock check
and claw-back on true→false), then the `is_active` request. -/
def update_my_credential (s : Settings) (user : User) (cred : Credential)
    (is_public : Option Bool) (is_active : Option Bool) : UpdateResult :=
  let applyActive := fun (c : Credential) =>
    match is_active with
    | some a => { c with is_active := a }
    | none => c
  match is_public with
  | some true =>
    if !cred.is_active then .rejected ("无效凭证不能捐赠")
    else if has_auth_error cred.last_error then .rejected ("凭证存在认证错误，不能捐赠")
    else
      let user1 :=
        if !cred.is_public then
          { user with daily_quota := user.daily_quota + donation_reward s cred.model_tier }
        else user
      .updated user1 (applyActive { cred with is_public := true })
  | some false =>
    if cred.is_public then
      if s.lock_donate && cred.is_active then .rejected ("站长已锁定捐赠，有效凭证不能取消捐赠")
      else
        let user1 :=
          { user with daily_quota :=
              undonate_quota s user.daily_quota (donation_reward s cred.model_tier) }
        .updated user1 (applyActive { cred with is_public := false })
    else .updated user (applyActive { cred with is_public := false })
  | none => .updated user (applyActive cred)

/-- `routers/auth.py::delete_my_credential`: the owner's user row after
deleting the credential (claw-back only for public credentials, with the
same guard and clamp as un-donation). -/
def delete_my_credential (s : Settings) (user : User) (cred : Credential) : User :=
  if cred.is_public then
    { user with daily_quota :=
        undonate_quota s user.daily_quota (donation_reward s cred.model_tier) }
  else user

/-- `routers/manage.py::toggle_donate` (POST /credentials/:id/donate):
flips `is_public` of the owned credential and commits; no `lock_donate`
check and no quota adjustment. -/
def toggle_donate (user : User) (cred : Credential) : UpdateResult :=
  .updated user { cred with is_public := !cred.is_public }

/-- The per-file effect of `routers/auth.py::upload_credentials` on the
uploader's quota and the new credential's flags, for an accepted file:
`force_donate` overrides the form flag, invalid credentials are never
made public, and a public valid credential credits `daily_quota` with the
tier reward. -/
structure UploadOutcome where
  user : User
  cred_is_public : Bool
  cred_is_active : Bool
  deriving DecidableEq, Repr

def upload_credential_effect (s : Settings) (user : User) (isPublicForm : Bool)
    (isValid : Bool) (modelTier : String) : UploadOutcome :=
  let isPublic := if s.force_donate then true else isPublicForm
  let actualPublic := isPublic && isValid
  let user1 :=
    if actualPublic && isValid then
      { user with daily_quota := user.daily_quota + donation_reward s modelTier }
    else user
  { user := user1, cred_is_public := actualPublic, cred_is_active := isValid }

/-- The owner toggle sequence `is_public := false; true; false` through
`update_my_credential` (each step committed before the next request). -/
def donate_toggle_seq (s : Settings) (user : User) (cred : Credential) : UpdateResult :=
  match update_my_credential s user cred (some false) none with
  | .rejected d => .rejected d
  | .updated u1 c1 =>
    match update_my_credential s u1 c1 (some true) none with
    | .rejected d => .rejected d
    | .updated u2 c2 => update_my_credential s u2 c2 (some false) none

/-- The state touched by `CredentialPool.handle_credential_failure`: the
credential row and (when it exists) its owner's user row. -/
structure PoolState where
  cred : Credential
  owner : Option User
  deriving DecidableEq, Repr

/-- `CredentialPool.mark_credential_error`: increment `failed_requests`
and store `last_error` (the function commits on its own). -/
def mark_credential_error (c : Credential) (error : String) : Credential :=
  { c with failed_requests := c.failed_requests + 1, last_error := some error }

/-- The auth-failure test of `handle_credential_failure`. -/
def is_auth_failure_text (error : String) : Bool :=
  strContains error ("401") || strContains error ("403") || strContains error ("PERMISSION_DENIED")

/-- `CredentialPool.handle_credential_failure`.  Returns the final state
together with the list of COMMITTED states in order:
`mark_credential_error` commits on its own, and the disable/claw-back (if
taken) is a second, separate commit. -/
def handle_credential_failure (s : Settings) (st : PoolState) (error : String) :
    PoolState × List PoolState :=
  let st1 : PoolState := { st with cred := mark_credential_error st.cred error }
  if is_auth_failure_text error then
    if st1.cred.is_active then
      let cred2 := { st1.cred with is_active := false }
      let owner2 :=
        if cred2.is_public && cred2.user_id.isSome then
          match st1.owner with
          | some u =>
            let deduct :=
              if cred2.model_tier == "3" then s.quota_flash + s.quota_25pro + s.quota_30pro
              else s.quota_flash + s.quota_25pro
            some { u with bonus_quota := max 0 (u.bonus_quota - deduct) }
          | none => none
        else st1.owner
      let st2 : PoolState := { cred := cred2, owner := owner2 }
      (st2, [st1, st2])
    else (st1, [st1])
  else (st1, [st1])

/-- Result of one dispatched request of
`routers/proxy.py::chat_completions`. -/
inductive DispatchOutcome where
  | ok
  | http_error (status : Nat)
  deriving DecidableEq, Repr

/-- One row appended to `usage_logs` by the dispatcher's `log_usage`. -/
structure AttemptLog where
  credential_id : Option Nat
  status_code : Nat
  deriving DecidableEq, Repr

/-- Upstream call result for one attempt. -/
inductive UpstreamResult where
  | success
  | failure (error : String)
  deriving DecidableEq, Repr

/-- The dispatcher's environment: the credential pool (selection given
the already-tried ids), the token refresher, and the upstream call.  The
pool and refresher are modelled abstractly here; the pool itself is
embedded separately as `get_available_credential`. -/
structure DispatchEnv where
  select_credential : List Nat → Option Nat
  get_access_token : Nat → Bool
  upstream : Nat → UpstreamResult

/-- The retry test of `chat_completions`:
`any(code in error for code in [404, 500, 503, 429, RESOURCE_EXHAUSTED, NOT_FOUND])`. -/
def should_retry_error (error : String) : Bool :=
  strContains error ("404") || strContains error ("500") || strContains error ("503")
  || strContains error ("429") || strContains error ("RESOURCE_EXHAUSTED")
  || strContains error ("NOT_FOUND")

/-- The retry loop of `chat_completions` (non-streaming path), with
`fuel` = remaining loop iterations (`range(max_retries + 1)`); `tried` is
`tried_credential_ids`.  A usage log is appended only where the source
calls `log_usage`: on success (status 200) and on a non-retried failure
(status 500).  Token-refresh failures mark the credential and continue
without logging; pool exhaustion and loop exhaustion raise 503. -/
def chat_completions_loop (env : DispatchEnv) :
    Nat → List Nat → List AttemptLog → DispatchOutcome × List AttemptLog
  | 0, _, logs => (.http_error 503, logs)
  | fuel + 1, tried, logs =>
    match env.select_credential tried with
    | none => (.http_error 503, logs)
    | some cid =>
      let tried1 := tried ++ [cid]
      if !(env.get_access_token cid) then
        chat_completions_loop env fuel tried1 logs
      else
        match env.upstream cid with
        | .success => (.ok, logs ++ [⟨some cid, 200⟩])
        | .failure e =>
          if should_retry_error e && decide (0 < fuel) then
            chat_completions_loop env fuel tried1 logs
          else
            (.http_error 500, logs ++ [⟨some cid, 500⟩])

/-- `chat_completions` dispatch: up to `error_retry_count + 1` attempts,
starting with no tried credentials and no usage logs. -/
def chat_completions (env : DispatchEnv) (errorRetryCount : Nat) :
    DispatchOutcome × List AttemptLog :=
  chat_completions_loop env (errorRetryCount + 1) [] []

/-! Concrete instances used by witnesses and counterexamples. -/

/-- A configuration snapshot for concrete evaluations. -/
def sW : Settings :=
  { cd_flash := 0, cd_pro := 0, cd_30 := 0,
    quota_flash := 100, quota_25pro := 50, quota_30pro := 50,
    credential_reward_quota_25 := 150, credential_reward_quota_30 := 200,
    default_daily_quota := 100,
    no_cred_quota_flash := 0, no_cred_quota_25pro := 0, no_cred_quota_30pro := 0,
    lock_donate := false, force_donate := false,
    credential_pool_mode := "full_shared", error_retry_count := 3 }

/-- An active, public, tier-"3" credential owned by user 1. -/
def credW : Credential :=
  { id := 1, user_id := some 1, project_id := some ("proj-a"), model_tier := "3",
    is_public := true, is_active := true, total_requests := 0, failed_requests := 0,
    last_error := none, last_used_at := none, last_used_flash := none,
    last_used_pro := none, last_used_30 := none }

/-- A usage-log row with a FAILED status (500) inside the current quota
window of `now = 500 * 86400 + 30000`. -/
def logC2 : UsageLog :=
  { user_id := 1, credential_id := some 1, model := "gemini-2.5-flash", status_code := 500,
    created_at := 500 * 86400 + 30000 }

/-- A user with one remaining daily-quota unit. -/
def userC2 : User :=
  { id := 1, is_active := true, is_admin := false, daily_quota := 1, bonus_quota := 0 }

/-- Settings whose configured tier-2.5 donation reward (7) differs from
`quota_flash + quota_25pro` (150). -/
def sC3 : Settings := { sW with credential_reward_quota_25 := 7 }

/-- A user with `daily_quota` 200 and `bonus_quota` 5. -/
def userC3 : User :=
  { id := 1, is_active := true, is_admin := false, daily_quota := 200, bonus_quota := 5 }

/-- An active, private, tier-"2.5" credential with no error history,
owned by user 1. -/
def credC3 : Credential :=
  { id := 2, user_id := some 1, project_id := some ("proj-b"), model_tier := "2.5",
    is_public := false, is_active := true, total_requests := 0, failed_requests := 0,
    last_error := none, last_used_at := none, last_used_flash := none,
    last_used_pro := none, last_used_30 := none }

/-- The owner of the failing credential in the C4 scenario. -/
def userC4 : User :=
  { id := 1, is_active := true, is_admin := false, daily_quota := 100, bonus_quota := 500 }

/-- Pool state for the C4 scenario: active public owned credential with
its owner row. -/
def stC4 : PoolState := { cred := credW, owner := some userC4 }

/-- Dispatch environment for the C7 scenario: credential 1 fails with a
retryable 503, credential 2 succeeds. -/
def envC7 : DispatchEnv :=
  { select_credential := fun tried =>
      if tried.contains 1 then (if tried.contains 2 then none else some 2) else some 1,
    get_access_token := fun _ => true,
    upstream := fun cid =>
      if cid == 1 then .failure ("upstream returned 503 UNAVAILABLE") else .success }

/-- A user with `daily_quota` 300 (default 100 plus the tier-3 reward 200)
and `bonus_quota` 7. -/
def userC9 : User :=
  { id := 1, is_active := true, is_admin := false, daily_quota := 300, bonus_quota := 7 }

end CatieCli

/-! Theorems. -/

namespace CatieCli

theorem luLE_refl (a : Option Int) : luLE a a = true := by
  cases a <;> simp [luLE]

theorem luLE_total (a b : Option Int) : luLE a b = true ∨ luLE b a = true := by
  rcases a with _ | a <;> rcases b with _ | b
  · simp [luLE]
  · simp [luLE]
  · simp [luLE]
  · simp only [luLE, decide_eq_true_eq]
    omega

theorem luLE_trans {a b c : Option Int} (h1 : luLE a b = true) (h2 : luLE b c = true) :
    luLE a c = true := by
  rcases a with _ | a <;> rcases b with _ | b <;> rcases c with _ | c <;>
    simp_all [luLE]
  omega

theorem mem_insertLU {x c : Credential} {l : List Credential} :
    x ∈ insertLU c l ↔ x = c ∨ x ∈ l := by
  induction l with
  | nil => simp [insertLU]
  | cons d ds ih =>
    by_cases h : luLE c.last_used_at d.last_used_at = true
    · simp [insertLU, h]
    · simp only [insertLU, h]
      simp only [Bool.false_eq_true, if_false, List.mem_cons, ih]
      tauto

theorem mem_sortLU {x : Credential} {l : List Credential} : x ∈ sortLU l ↔ x ∈ l := by
  induction l with
  | nil => simp [sortLU]
  | cons c cs ih =>
    show x ∈ insertLU c (sortLU cs) ↔ x ∈ c :: cs
    rw [mem_insertLU, ih, List.mem_cons]

theorem pairwise_insertLU {c : Credential} {l : List Credential}
    (h : l.Pairwise (fun a b => luLE a.last_used_at b.last_used_at = true)) :
    (insertLU c l).Pairwise (fun a b => luLE a.last_used_at b.last_used_at = true) := by
  induction l with
  | nil => simp [insertLU]
  | cons d ds ih =>
    rcases List.pairwise_cons.mp h with ⟨hd, hds⟩
    by_cases hc : luLE c.last_used_at d.last_used_at = true
    · simp only [insertLU, hc, if_true]
      refine List.pairwise_cons.mpr ⟨?_, h⟩
      intro b hb
      rcases List.mem_cons.mp hb with rfl | hb
      · exact hc
      · exact luLE_trans hc (hd b hb)
    · simp only [insertLU, hc, Bool.false_eq_true, if_false]
      refine List.pairwise_cons.mpr ⟨?_, ih hds⟩
      intro b hb
      rcases mem_insertLU.mp hb with rfl | hb
      · rcases luLE_total b.last_used_at d.last_used_at with h1 | h1
        · exact absurd h1 hc
        · exact h1
      · exact hd b hb

theorem pairwise_sortLU (l : List Credential) :
    (sortLU l).Pairwise (fun a b => luLE a.last_used_at b.last_used_at = true) := by
  induction l with
  | nil => simp [sortLU]
  | cons c cs ih => exact pairwise_insertLU ih

theorem head_min_sortLU {l : List Credential} {c0 : Credential} {rest : List Credential}
    (h : sortLU l = c0 :: rest) : ∀ x ∈ l, luLE c0.last_used_at x.last_used_at = true := by
  intro x hx
  have hmem : x ∈ sortLU l := mem_sortLU.mpr hx
  rw [h] at hmem
  rcases List.mem_cons.mp hmem with rfl | hmem
  · exact luLE_refl _
  · have hp := pairwise_sortLU l
    rw [h] at hp
    exact (List.pairwise_cons.mp hp).1 x hmem

theorem pred_eligible {s : Settings} {db : List Credential} {userId : Nat} {hasPub : Bool}
    {requiredTier : String} {excludeIds : List Nat} {c : Credential}
    (h : pool_filter_pred s db userId hasPub requiredTier excludeIds c = true) :
    c.is_active = true ∧ c.project_id.getD ("") ≠ "" ∧ c.id ∉ excludeIds ∧
      (requiredTier = "3" → c.model_tier = "3") := by
  simp only [pool_filter_pred, Bool.and_eq_true, Bool.not_eq_true', Bool.or_eq_true,
    bne_iff_ne, ne_eq, beq_iff_eq] at h
  obtain ⟨⟨⟨⟨hact, hproj⟩, hexc⟩, htier⟩, _⟩ := h
  refine ⟨hact, hproj, ?_, ?_⟩
  · intro hmem
    simp at hexc
    exact hexc hmem
  · intro h3
    rcases htier with htier | htier
    · exact absurd h3 htier
    · exact htier

theorem selected_mem {s : Settings} {db : List Credential} {now : Int} {userId : Nat}
    {hasPub : Bool} {model : Option String} {excludeIds : List Nat} {c : Credential}
    (h : get_available_credential s db now userId hasPub model excludeIds = some c) :
    c ∈ pool_candidates s db userId hasPub model excludeIds := by
  rw [← mem_sortLU]
  simp only [get_available_credential] at h
  split at h
  · exact absurd h (by simp)
  next c0 rest heq =>
    split at h
    next heq2 =>
      have h1 : c0 = c := by injection h
      rw [heq, ← h1]
      exact List.mem_cons_self _ _
    next d ds heq2 =>
      have h1 : d = c := by injection h
      rw [heq, ← h1]
      have hd : d ∈ (c0 :: rest).filter
          (fun x => !(is_credential_in_cd s now x (get_model_group (model.getD (""))))) := by
        rw [heq2]
        exact List.mem_cons_self _ _
      exact (List.mem_filter.mp hd).1

theorem sortLU_ne_nil {l : List Credential} (h : l ≠ []) : sortLU l ≠ [] := by
  intro hs
  rcases l with _ | ⟨a, l⟩
  · exact h rfl
  · have : a ∈ sortLU (a :: l) := mem_sortLU.mpr (List.mem_cons_self _ _)
    rw [hs] at this
    simp at this

theorem selected_not_in_cd {s : Settings} {db : List Credential} {now : Int} {userId : Nat}
    {hasPub : Bool} {model : Option String} {excludeIds : List Nat}
    (h : ∃ y ∈ pool_candidates s db userId hasPub model excludeIds,
      is_credential_in_cd s now y (get_model_group (model.getD (""))) = false) :
    ∃ c, get_available_credential s db now userId hasPub model excludeIds = some c ∧
      is_credential_in_cd s now c (get_model_group (model.getD (""))) = false := by
  obtain ⟨y, hy, hycd⟩ := h
  have hymem : y ∈ sortLU (pool_candidates s db userId hasPub model excludeIds) :=
    mem_sortLU.mpr hy
  simp only [get_available_credential]
  split
  next heq =>
    rw [heq] at hymem
    simp at hymem
  next c0 rest heq =>
    rw [heq] at hymem
    have hyf : y ∈ (c0 :: rest).filter
        (fun x => !(is_credential_in_cd s now x (get_model_group (model.getD (""))))) :=
      List.mem_filter.mpr ⟨hymem, by simp [hycd]⟩
    split
    next heq2 =>
      rw [heq2] at hyf
      simp at hyf
    next d ds heq2 =>
      refine ⟨d, rfl, ?_⟩
      have hd : d ∈ (c0 :: rest).filter
          (fun x => !(is_credential_in_cd s now x (get_model_group (model.getD (""))))) := by
        rw [heq2]
        exact List.mem_cons_self _ _
      have := (List.mem_filter.mp hd).2
      simpa using this

theorem selected_all_in_cd {s : Settings} {db : List Credential} {now : Int} {userId : Nat}
    {hasPub : Bool} {model : Option String} {excludeIds : List Nat}
    (hne : pool_candidates s db userId hasPub model excludeIds ≠ [])
    (hall : ∀ y ∈ pool_candidates s db userId hasPub model excludeIds,
      is_credential_in_cd s now y (get_model_group (model.getD (""))) = true) :
    ∃ c, get_available_credential s db now userId hasPub model excludeIds = some c ∧
      c ∈ pool_candidates s db userId hasPub model excludeIds ∧
      ∀ x ∈ pool_candidates s db userId hasPub model excludeIds,
        luLE c.last_used_at x.last_used_at = true := by
  simp only [get_available_credential]
  split
  next heq => exact absurd heq (sortLU_ne_nil hne)
  next c0 rest heq =>
    have hc0 : c0 ∈ pool_candidates s db userId hasPub model excludeIds := by
      rw [← mem_sortLU, heq]
      exact List.mem_cons_self _ _
    have hfil : (c0 :: rest).filter
        (fun x => !(is_credential_in_cd s now x (get_model_group (model.getD (""))))) = [] := by
      apply List.filter_eq_nil_iff.mpr
      intro a ha
      have hamem : a ∈ pool_candidates s db userId hasPub model excludeIds := by
        rw [← mem_sortLU, heq]
        exact ha
      simp [hall a hamem]
    split
    next => exact ⟨c0, rfl, hc0, head_min_sortLU heq⟩
    next d ds heq2 =>
      rw [hfil] at heq2
      exact absurd heq2.symm (List.cons_ne_nil d ds)

/-- C1: every credential returned by `get_available_credential` is active,
has a non-empty `project_id`, has an id outside the excluded set, and has
`model_tier = "3"` whenever the requested model requires tier "3"; for a
model not requiring tier "3" the selection filter is independent of the
credential's tier; and when no credential in the DB satisfies these
filters the selection returns `none` instead of falling back. -/
theorem claim_C1_selection_filters (s : Settings) (db : List Credential) (now : Int)
    (userId : Nat) (hasPub : Bool) (model : String) (excludeIds : List Nat) :
    (∀ c, get_available_credential s db now userId hasPub (some model) excludeIds = some c →
      c.is_active = true ∧ c.project_id.getD ("") ≠ "" ∧ c.id ∉ excludeIds ∧
        (get_required_tier model = "3" → c.model_tier = "3")) ∧
    (get_required_tier model ≠ "3" →
      ∀ c tier, pool_filter_pred s db userId hasPub (get_required_tier model) excludeIds c =
        pool_filter_pred s db userId hasPub (get_required_tier model) excludeIds
          { c with model_tier := tier }) ∧
    ((∀ c ∈ db, ¬(c.is_active = true ∧ c.project_id.getD ("") ≠ "" ∧ c.id ∉ excludeIds ∧
        (get_required_tier model = "3" → c.model_tier = "3"))) →
      get_available_credential s db now userId hasPub (some model) excludeIds = none) := by
  refine ⟨?_, ?_, ?_⟩
  · intro c h
    have hc := selected_mem h
    have hpred := (List.mem_filter.mp hc).2
    simpa using pred_eligible hpred
  · intro hne c tier
    have h3 : (get_required_tier model != "3") = true := bne_iff_ne.mpr hne
    simp only [pool_filter_pred, pool_mode_ok, h3, Bool.true_or]
  · intro hall
    rcases hres : get_available_credential s db now userId hasPub (some model) excludeIds with
      _ | c
    · rfl
    · have hc := selected_mem hres
      have hmem := (List.mem_filter.mp hc).1
      have hpred := (List.mem_filter.mp hc).2
      exact absurd (by simpa using pred_eligible hpred) (hall c hmem)

/-- Witness for C1: the concrete pool with one active public tier-"3"
credential returns it for a Gemini-3 model, and the theorem yields its
postconditions. -/
theorem claim_C1_witness :
    credW.is_active = true ∧ credW.project_id.getD ("") ≠ "" ∧ credW.id ∉ ([] : List Nat) ∧
      (get_required_tier ("gemini-3-pro-preview") = "3" → credW.model_tier = "3") :=
  (claim_C1_selection_filters sW [credW] 0 1 true ("gemini-3-pro-preview") []).1 credW
    (by decide)

/-- C5: a credential with a recorded group timestamp and a positive group
cooldown is in cooldown iff `now - last_used < cd_seconds`; whenever some
candidate is outside its cooldown, the selection returns a credential that
is outside its cooldown; and when every candidate is in cooldown the
selection still returns the least-recently-used candidate (smallest
`last_used_at`, NULLs first) instead of `none`. -/
theorem claim_C5_cooldown (s : Settings) (db : List Credential) (now : Int) (userId : Nat)
    (hasPub : Bool) (model : Option String) (excludeIds : List Nat) :
    (∀ c group t, cd_last_used c group = some t → 0 < get_cd_seconds s group →
      (is_credential_in_cd s now c group = true ↔ now - t < get_cd_seconds s group)) ∧
    ((∃ y ∈ pool_candidates s db userId hasPub model excludeIds,
        is_credential_in_cd s now y (get_model_group (model.getD (""))) = false) →
      ∃ c, get_available_credential s db now userId hasPub model excludeIds = some c ∧
        is_credential_in_cd s now c (get_model_group (model.getD (""))) = false) ∧
    (pool_candidates s db userId hasPub model excludeIds ≠ [] →
      (∀ y ∈ pool_candidates s db userId hasPub model excludeIds,
        is_credential_in_cd s now y (get_model_group (model.getD (""))) = true) →
      ∃ c, get_available_credential s db now userId hasPub model excludeIds = some c ∧
        c ∈ pool_candidates s db userId hasPub model excludeIds ∧
        ∀ x ∈ pool_candidates s db userId hasPub model excludeIds,
          luLE c.last_used_at x.last_used_at = true) := by
  refine ⟨?_, selected_not_in_cd, selected_all_in_cd⟩
  intro c group t h1 h2
  simp only [is_credential_in_cd, h1]
  have : ¬(get_cd_seconds s group ≤ 0) := by omega
  simp only [this, if_false, decide_eq_true_eq]
  omega

/-- Witness for C5: with a positive flash cooldown and a just-used
credential, the cooldown test matches the subtraction form. -/
theorem claim_C5_witness :
    cd_last_used { credW with last_used_flash := some 100 } ("flash") = some 100 ∧
      (0 : Int) < get_cd_seconds { sW with cd_flash := 30 } ("flash") ∧
      (is_credential_in_cd { sW with cd_flash := 30 } 110
          { credW with last_used_flash := some 100 } ("flash") = true ↔
        (110 : Int) - 100 < get_cd_seconds { sW with cd_flash := 30 } ("flash")) :=
  ⟨by decide, by decide,
    (claim_C5_cooldown { sW with cd_flash := 30 } [] 110 1 true (some ("gemini-2.5-flash"))
      []).1 { credW with last_used_flash := some 100 } ("flash") 100 (by decide) (by decide)⟩

/-- C6: the start-of-day is 07:00 UTC of the current day when
`now ≥ 07:00 UTC`, else 07:00 UTC of the previous day; in particular
06:59:59 UTC falls in the previous window and 07:00:00 UTC in the current
one. -/
theorem claim_C6_rollover :
    (∀ d sec, 1 ≤ d → sec < 86400 →
      start_of_day (d * 86400 + sec) =
        if 25200 ≤ sec then d * 86400 + 25200 else (d - 1) * 86400 + 25200) ∧
    start_of_day (500 * 86400 + 25199) = 499 * 86400 + 25200 ∧
    start_of_day (500 * 86400 + 25200) = 500 * 86400 + 25200 := by
  refine ⟨?_, by decide, by decide⟩
  intro d sec h1 h2
  simp only [start_of_day, reset_time_utc, seconds_per_day]
  split <;> split <;> omega

/-- Witness for C6: the general rollover theorem applied at day 500,
second 25200 (exactly 07:00:00 UTC). -/
theorem claim_C6_witness :
    start_of_day (500 * 86400 + 25200) =
      if 25200 ≤ 25200 then 500 * 86400 + 25200 else (500 - 1) * 86400 + 25200 :=
  claim_C6_rollover.1 500 25200 (by decide) (by decide)

/-- C2 (amended): for an active user owning at least one active
credential, the dispatcher rejects with 429 exactly when the count of ALL
of the user's usage logs (any status code) since start-of-day reaches the
user's `daily_quota` column (the single effective-quota field). -/
theorem claim_C2_amended (s : Settings) (db : List Credential) (logs : List UsageLog)
    (user : User) (now : Nat) (reqModel : String)
    (hactive : user.is_active = true)
    (hcred : db.any (fun c => c.user_id == some user.id && c.is_active) = true) :
    get_user_from_api_key s db logs user now reqModel =
        .reject 429 ("已达到今日总配额限制") ↔
      user.daily_quota ≤ (count_user_logs_since logs user.id (start_of_day now) : Int) := by
  simp only [get_user_from_api_key, hactive, hcred, Bool.not_true, Bool.false_eq_true,
    if_false, if_true]
  split
  next h => simp [h]
  next h => simp [h]

/-- Witness for C2: a user with one active credential, quota 1 and one
log in the window is rejected with 429. -/
theorem claim_C2_witness :
    get_user_from_api_key sW [credW] [logC2] userC2 (500 * 86400 + 30000)
        ("gemini-2.5-flash") = .reject 429 ("已达到今日总配额限制") :=
  (claim_C2_amended sW [credW] [logC2] userC2 (500 * 86400 + 30000) ("gemini-2.5-flash")
    (by decide) (by decide)).mpr (by decide)

/-- C2 counterexample: with a single FAILED log (status 500) inside the
window and `daily_quota = 1`, the code rejects the request with 429
although the count of SUCCESSFUL logs (0) is strictly below the quota —
refuting the claim that only successful usage logs are counted. -/
theorem claim_C2_counterexample :
    get_user_from_api_key sW [credW] [logC2] userC2 (500 * 86400 + 30000)
        ("gemini-2.5-flash") = .reject 429 ("已达到今日总配额限制") ∧
    (spec_successful_count_since [logC2] userC2.id (start_of_day (500 * 86400 + 30000)) : Int) <
      userC2.daily_quota :=
  ⟨by decide, by decide⟩

/-- C3 (amended): an owner-initiated false→true donation of an active,
non-auth-errored credential credits the owner's `daily_quota` (not a
separate bonus field) by exactly the configured
`credential_reward_quota_25` for tier "2.5" or `credential_reward_quota_30`
for tier "3"; the upload path with a requested-public, valid credential
credits the same amount. -/
theorem claim_C3_amended (s : Settings) (user : User) (cred : Credential)
    (h1 : cred.is_active = true) (h2 : has_auth_error cred.last_error = false)
    (h3 : cred.is_public = false) :
    update_my_credential s user cred (some true) none =
      .updated { user with daily_quota := user.daily_quota + donation_reward s cred.model_tier }
        { cred with is_public := true } ∧
    (upload_credential_effect s user true true cred.model_tier).user =
      { user with daily_quota := user.daily_quota + donation_reward s cred.model_tier } := by
  constructor
  · simp [update_my_credential, h1, h2, h3]
  · simp [upload_credential_effect]

/-- Witness for C3: donating the concrete private tier-"2.5" credential
credits its owner by the configured reward. -/
theorem claim_C3_witness :
    update_my_credential sW userC3 credC3 (some true) none =
      .updated
        { userC3 with daily_quota := userC3.daily_quota + donation_reward sW credC3.model_tier }
        { credC3 with is_public := true } :=
  (claim_C3_amended sW userC3 credC3 (by decide) (by decide) (by decide)).1

/-- C3 counterexample: with `credential_reward_quota_25 = 7` while
`quota_flash + quota_25pro = 150`, donating a tier-"2.5" credential adds
7 (≠ 150) to `daily_quota` and leaves `bonus_quota` untouched — the
claimed `bonus_quota` increase by `quota_flash + quota_25pro` does not
happen. -/
theorem claim_C3_counterexample :
    update_my_credential sC3 userC3 credC3 (some true) none =
      .updated { userC3 with daily_quota := 207 } { credC3 with is_public := true } ∧
    (207 : Int) - userC3.daily_quota ≠ sC3.quota_flash + sC3.quota_25pro ∧
    ({ userC3 with daily_quota := 207 } : User).bonus_quota = userC3.bonus_quota :=
  ⟨by decide, by decide, by decide⟩

/-- C4 (amended): `handle_credential_failure` always increments
`failed_requests` and stores `last_error`, committed by
`mark_credential_error` as a FIRST transaction; when the error text
matches 401/403/PERMISSION_DENIED and the credential is still active, a
SECOND transaction disables it and, if it is public and owned, lowers the
owner's `bonus_quota` by `quota_flash + quota_25pro` (plus `quota_30pro`
for tier "3"), floored at zero.  The updates span two commits, and an
already-inactive credential gets no second commit. -/
theorem claim_C4_amended (s : Settings) (st : PoolState) (error : String) :
    ((handle_credential_failure s st error).2.head? =
        some { st with cred := mark_credential_error st.cred error } ∧
      (mark_credential_error st.cred error).failed_requests = st.cred.failed_requests + 1 ∧
      (mark_credential_error st.cred error).last_error = some error) ∧
    (is_auth_failure_text error = false →
      handle_credential_failure s st error =
        ({ st with cred := mark_credential_error st.cred error },
          [{ st with cred := mark_credential_error st.cred error }])) ∧
    (is_auth_failure_text error = true → st.cred.is_active = false →
      handle_credential_failure s st error =
        ({ st with cred := mark_credential_error st.cred error },
          [{ st with cred := mark_credential_error st.cred error }])) ∧
    (is_auth_failure_text error = true → st.cred.is_active = true →
      (handle_credential_failure s st error).1.cred.is_active = false ∧
      (handle_credential_failure s st error).2.length = 2 ∧
      (st.cred.is_public = true → ∀ uid u, st.cred.user_id = some uid → st.owner = some u →
        (handle_credential_failure s st error).1.owner =
          some { u with bonus_quota := max 0 (u.bonus_quota -
            (if st.cred.model_tier == "3" then s.quota_flash + s.quota_25pro + s.quota_30pro
             else s.quota_flash + s.quota_25pro)) })) := by
  refine ⟨⟨?_, rfl, rfl⟩, ?_, ?_, ?_⟩
  · simp only [handle_credential_failure, mark_credential_error]
    split
    · split
      · rfl
      · rfl
    · rfl
  · intro h
    simp [handle_credential_failure, h]
  · intro h hact
    simp [handle_credential_failure, mark_credential_error, h, hact]
  · intro h hact
    refine ⟨?_, ?_, ?_⟩
    · simp [handle_credential_failure, mark_credential_error, h, hact]
    · simp [handle_credential_failure, mark_credential_error, h, hact]
    · intro hpub uid u huid howner
      simp [handle_credential_failure, mark_credential_error, h, hact, hpub, huid, howner]

/-- Witness for C4: a 403 failure of the concrete active public owned
credential disables it in a second commit. -/
theorem claim_C4_witness :
    (handle_credential_failure sW stC4 ("API Error 403")).1.cred.is_active = false ∧
    (handle_credential_failure sW stC4 ("API Error 403")).2.length = 2 :=
  ⟨((claim_C4_amended sW stC4 ("API Error 403")).2.2.2 (by decide) (by decide)).1,
    ((claim_C4_amended sW stC4 ("API Error 403")).2.2.2 (by decide) (by decide)).2.1⟩

/-- C4 counterexample: on a 403 failure of an active credential the
handler issues TWO commits; the first committed state already has
`failed_requests` incremented but still has `is_active = true`, while the
final state has `is_active = false` — so the updates do not take effect
atomically in a single DB transaction. -/
theorem claim_C4_counterexample :
    (handle_credential_failure sW stC4 ("API Error 403")).2.length = 2 ∧
    ((handle_credential_failure sW stC4 ("API Error 403")).2.head?.map
      (fun p => p.cred.is_active)) = some true ∧
    ((handle_credential_failure sW stC4 ("API Error 403")).2.head?.map
      (fun p => p.cred.failed_requests)) = some (stC4.cred.failed_requests + 1) ∧
    (handle_credential_failure sW stC4 ("API Error 403")).1.cred.is_active = false :=
  ⟨by decide, by decide, by decide, by decide⟩

theorem chat_loop_logs (env : DispatchEnv) :
    ∀ fuel tried logs,
      ((chat_completions_loop env fuel tried logs).2 = logs ∧
        (chat_completions_loop env fuel tried logs).1 ≠ .ok) ∨
      (∃ cid, (chat_completions_loop env fuel tried logs).2 = logs ++ [⟨some cid, 200⟩] ∧
        (chat_completions_loop env fuel tried logs).1 = .ok) ∨
      (∃ cid, (chat_completions_loop env fuel tried logs).2 = logs ++ [⟨some cid, 500⟩] ∧
        (chat_completions_loop env fuel tried logs).1 = .http_error 500) := by
  intro fuel
  induction fuel with
  | zero =>
    intro tried logs
    left
    exact ⟨rfl, by simp [chat_completions_loop]⟩
  | succ n ih =>
    intro tried logs
    rcases hsel : env.select_credential tried with _ | cid
    · left
      refine ⟨?_, ?_⟩ <;> simp [chat_completions_loop, hsel]
    · rcases htok : env.get_access_token cid with _ | _
      · have heq : chat_completions_loop env (n + 1) tried logs =
            chat_completions_loop env n (tried ++ [cid]) logs := by
          simp [chat_completions_loop, hsel, htok]
        rw [heq]
        exact ih (tried ++ [cid]) logs
      · rcases hup : env.upstream cid with _ | e
        · right
          left
          exact ⟨cid, by simp [chat_completions_loop, hsel, htok, hup]⟩
        · by_cases hr : (should_retry_error e && decide (0 < n)) = true
          · have heq : chat_completions_loop env (n + 1) tried logs =
                chat_completions_loop env n (tried ++ [cid]) logs := by
              simp only [chat_completions_loop, hsel, htok, hup, hr]
              simp
            rw [heq]
            exact ih (tried ++ [cid]) logs
          · right
            right
            refine ⟨cid, ?_⟩
            simp only [chat_completions_loop, hsel, htok, hup, hr]
            simp

/-- C7 (amended): for each dispatched request at most ONE usage-log row
is written: a 200 row for the attempt that finally succeeds or a 500 row
for a final non-retried failure.  Retried failing attempts and
token-refresh failures write no rows (they only update the credential's
own failure counters), so a request that fails on credential A and then
succeeds on credential B produces exactly one row. -/
theorem claim_C7_amended (env : DispatchEnv) (errorRetryCount : Nat) :
    (chat_completions env errorRetryCount).2.length ≤ 1 ∧
    ((chat_completions env errorRetryCount).1 = .ok →
      ∃ cid, (chat_completions env errorRetryCount).2 = [⟨some cid, 200⟩]) ∧
    ((chat_completions env errorRetryCount).1 ≠ .ok →
      (chat_completions env errorRetryCount).2 = [] ∨
      ∃ cid, (chat_completions env errorRetryCount).2 = [⟨some cid, 500⟩]) := by
  have h := chat_loop_logs env (errorRetryCount + 1) [] []
  simp only [chat_completions]
  rcases h with ⟨h1, h2⟩ | ⟨cid, h1, h2⟩ | ⟨cid, h1, h2⟩
  · rw [h1]
    exact ⟨by simp, fun hok => absurd hok h2, fun _ => Or.inl rfl⟩
  · rw [h1, h2]
    simp
  · rw [h1, h2]
    refine ⟨by simp, by simp, fun _ => Or.inr ⟨cid, by simp⟩⟩

/-- Witness for C7: in the concrete failover scenario the request ends
with 200 and a single log row exists. -/
theorem claim_C7_witness :
    ∃ cid, (chat_completions envC7 2).2 = [⟨some cid, 200⟩] :=
  (claim_C7_amended envC7 2).2.1 (by decide)

/-- C7 counterexample: credential 1 fails with a retryable 503 and the
request is retried and succeeds on credential 2, yet exactly ONE usage
log row (for credential 2) is written — not the two rows (A with the
error status, B with 200) the claim requires. -/
theorem claim_C7_counterexample :
    (chat_completions envC7 2).1 = .ok ∧
    (chat_completions envC7 2).2 = [⟨some 2, 200⟩] ∧
    (chat_completions envC7 2).2.length ≠ 2 :=
  ⟨by decide, by decide, by decide⟩

/-- C8 (amended): via the credentials PATCH endpoint
(`update_my_credential`), when `lock_donate` is enabled an owner's
true→false request on an active credential is rejected with an error
before any state change; the manage-router donation toggle
(`toggle_donate`), however, flips `is_public` without consulting
`lock_donate`. -/
theorem claim_C8_amended (s : Settings) (user : User) (cred : Credential)
    (h1 : s.lock_donate = true) (h2 : cred.is_public = true) (h3 : cred.is_active = true) :
    update_my_credential s user cred (some false) none =
      .rejected ("站长已锁定捐赠，有效凭证不能取消捐赠") ∧
    toggle_donate user cred = .updated user { cred with is_public := false } := by
  constructor
  · simp [update_my_credential, h1, h2, h3]
  · simp [toggle_donate, h2]

/-- Witness for C8: with `lock_donate` on, the PATCH un-donation of the
concrete active public credential is rejected. -/
theorem claim_C8_witness :
    update_my_credential { sW with lock_donate := true } userC3 credW (some false) none =
      .rejected ("站长已锁定捐赠，有效凭证不能取消捐赠") :=
  (claim_C8_amended { sW with lock_donate := true } userC3 credW rfl (by decide)
    (by decide)).1

/-- C8 counterexample: with `lock_donate` enabled, the owner-initiated
donate-toggle endpoint still turns an active public credential
non-public instead of rejecting — so not every owner-initiated
true→false attempt is rejected. -/
theorem claim_C8_counterexample :
    ({ sW with lock_donate := true } : Settings).lock_donate = true ∧
    credW.is_public = true ∧ credW.is_active = true ∧
    toggle_donate userC3 credW = .updated userC3 { credW with is_public := false } :=
  ⟨rfl, rfl, rfl, by decide⟩

/-- C9 (amended): the owner toggle sequence off→on→off restores the
owner's `daily_quota` (the field the donation accounting actually
modifies) when the credential starts non-public, is active with no
recorded auth error, `lock_donate` is off, and the owner's quota is at
least the default; starting instead from a public credential with
`daily_quota - default ≥ reward`, the sequence ends one reward below its
initial value. -/
theorem claim_C9_amended (s : Settings) (user : User) (cred : Credential)
    (h0 : s.lock_donate = false) (h1 : cred.is_active = true)
    (h2 : has_auth_error cred.last_error = false) (h3 : cred.is_public = false)
    (h4 : s.default_daily_quota ≤ user.daily_quota) :
    donate_toggle_seq s user cred = .updated user { cred with is_public := false } := by
  have e1 : update_my_credential s user cred (some false) none =
      .updated user { cred with is_public := false } := by
    simp [update_my_credential, h3]
  have e2 : update_my_credential s user { cred with is_public := false } (some true) none =
      .updated { user with daily_quota := user.daily_quota + donation_reward s cred.model_tier }
        { cred with is_public := true } := by
    simp [update_my_credential, h1, h2]
  have hval : undonate_quota s (user.daily_quota + donation_reward s cred.model_tier)
      (donation_reward s cred.model_tier) = user.daily_quota := by
    simp only [undonate_quota]
    rw [if_pos (by omega)]
    have harith : user.daily_quota + donation_reward s cred.model_tier -
        donation_reward s cred.model_tier = user.daily_quota := by omega
    rw [harith]
    exact max_eq_right h4
  have e3 : update_my_credential s
      { user with daily_quota := user.daily_quota + donation_reward s cred.model_tier }
      { cred with is_public := true } (some false) none =
      .updated user { cred with is_public := false } := by
    simp [update_my_credential, h0, hval]
  simp only [donate_toggle_seq, e1, e2, e3]

/-- Witness for C9: the concrete private credential's off→on→off
sequence leaves its owner's quota unchanged. -/
theorem claim_C9_witness :
    donate_toggle_seq sW userC3 credC3 = .updated userC3 { credC3 with is_public := false } :=
  claim_C9_amended sW userC3 credC3 rfl (by decide) (by decide) (by decide) (by decide)

/-- C9 counterexample: starting from a PUBLIC active tier-"3" credential
(reward 200) and quota 300 with default 100, the off→on→off sequence
ends with quota 100 ≠ 300 — the sequence does not return the owner's
quota to its pre-sequence value (and the `bonus_quota` column is never
touched by these endpoints at all). -/
theorem claim_C9_counterexample :
    donate_toggle_seq sW userC9 credW =
      .updated { userC9 with daily_quota := 100 } { credW with is_public := false } ∧
    (100 : Int) ≠ userC9.daily_quota :=
  ⟨by decide, by decide⟩

/-- C10: owner un-donation and owner deletion of a public credential
reduce `daily_quota` by the configured reward only when
`daily_quota - default_daily_quota ≥ reward`, clamping the result at
`default_daily_quota`; in all other cases the quota is unchanged — the
operations never move `daily_quota` below the configured default. -/
theorem claim_C10_quota_floor (s : Settings) (user : User) (cred : Credential)
    (hpub : cred.is_public = true) :
    ((delete_my_credential s user cred).daily_quota =
      (if donation_reward s cred.model_tier ≤ user.daily_quota - s.default_daily_quota
       then max s.default_daily_quota (user.daily_quota - donation_reward s cred.model_tier)
       else user.daily_quota)) ∧
    ((delete_my_credential s user cred).daily_quota = user.daily_quota ∨
      s.default_daily_quota ≤ (delete_my_credential s user cred).daily_quota) ∧
    (∀ u1 c1, update_my_credential s user cred (some false) none = .updated u1 c1 →
      (u1.daily_quota =
        (if donation_reward s cred.model_tier ≤ user.daily_quota - s.default_daily_quota
         then max s.default_daily_quota (user.daily_quota - donation_reward s cred.model_tier)
         else user.daily_quota)) ∧
      (u1.daily_quota = user.daily_quota ∨ s.default_daily_quota ≤ u1.daily_quota)) := by
  have hdel : (delete_my_credential s user cred).daily_quota =
      undonate_quota s user.daily_quota (donation_reward s cred.model_tier) := by
    simp [delete_my_credential, hpub]
  have hshape : ∀ q : Int, q = undonate_quota s user.daily_quota
        (donation_reward s cred.model_tier) →
      (q = (if donation_reward s cred.model_tier ≤ user.daily_quota - s.default_daily_quota
        then max s.default_daily_quota (user.daily_quota - donation_reward s cred.model_tier)
        else user.daily_quota)) ∧
      (q = user.daily_quota ∨ s.default_daily_quota ≤ q) := by
    intro q hq
    subst hq
    refine ⟨rfl, ?_⟩
    simp only [undonate_quota]
    split
    · right
      exact le_max_left _ _
    · left
      rfl
  refine ⟨(hshape _ hdel).1, (hshape _ hdel).2, ?_⟩
  intro u1 c1 h
  simp only [update_my_credential, hpub, if_true] at h
  split at h
  · exact absurd h (by simp)
  · have hu : u1.daily_quota =
        undonate_quota s user.daily_quota (donation_reward s cred.model_tier) := by
      injection h with hu1 hc1
      rw [← hu1]
    exact hshape _ hu

/-- Witness for C10: deleting the public tier-"3" credential with quota
300, default 100 and reward 200 clamps the quota to exactly the default. -/
theorem claim_C10_witness :
    (delete_my_credential sW userC9 credW).daily_quota =
      (if donation_reward sW credW.model_tier ≤ userC9.daily_quota - sW.default_daily_quota
       then max sW.default_daily_quota (userC9.daily_quota - donation_reward sW credW.model_tier)
       else userC9.daily_quota) :=
  (claim_C10_quota_floor sW userC9 credW rfl).1

end CatieCli
